import Mathlib

/-!
# Theme controller of `assets/js/dark-mode.js`

A shallow embedding of the script's two handlers (the `DOMContentLoaded`
handler and the click handler it registers on `#dark-mode-toggle`) over an
explicit page state: the attributes of the root element, the contents of
`localStorage`, the elements reachable through `getElementById`, and whether
`localStorage` can be read and written.  JavaScript exceptions are modelled by
the `Completion` of a handler run: a run that throws keeps every mutation made
before the throwing statement.
-/

namespace DarkMode

/-! ## Data model -/

/-- Exceptions the statements of the script can raise. -/
inductive JsError where
  | typeError
  | securityError
  | quotaExceededError
  deriving DecidableEq, Repr

/-- How a handler run ends: normally, or by an uncaught exception. -/
inductive Completion where
  | normal
  | throw (err : JsError)
  deriving DecidableEq, Repr

/-- Availability of `localStorage`: usable, readable but refusing writes
(quota exhausted), or inaccessible (every access throws). -/
inductive StorageStatus where
  | available
  | quotaExceeded
  | denied
  deriving DecidableEq, Repr

/-- Listeners this script registers; the only one is the click closure of
lines 5-14. -/
inductive Listener where
  | themeClick
  deriving DecidableEq, Repr

/-- An element of the document, reduced to its registered click listeners. -/
structure Element where
  clickListeners : List Listener
  deriving DecidableEq, Repr

/-- The part of the browser state the script touches. -/
structure Page where
  /-- The map `document.getElementById`. -/
  elements : String → Option Element
  /-- Attributes of `document.documentElement`. -/
  attrs : String → Option String
  /-- Contents of `localStorage`. -/
  store : String → Option String
  /-- Whether `localStorage` can be read and written. -/
  storage : StorageStatus

/-- The click event handed to the listener. -/
structure Event where
  cancelable : Bool
  defaultPrevented : Bool
  deriving DecidableEq, Repr

/-- Result of running the `DOMContentLoaded` handler. -/
structure Outcome where
  page : Page
  completion : Completion

/-- Result of running the click handler. -/
structure ClickOutcome where
  page : Page
  event : Event
  completion : Completion

/-! ## Browser operations used by the script -/

/-- The call `document.getElementById(id)`: the element, or `null`. -/
def getElementById (p : Page) (id : String) : Option Element :=
  p.elements id

/-- The call `html.getAttribute(name)`: the value, or `null`. -/
def getAttribute (p : Page) (name : String) : Option String :=
  p.attrs name

/-- The call `html.setAttribute(name, value)`. -/
def setAttribute (p : Page) (name value : String) : Page :=
  { p with attrs := fun k => if k = name then some value else p.attrs k }

/-- The call `localStorage.getItem(key)`: throws when storage is inaccessible. -/
def getItem (p : Page) (key : String) : Except JsError (Option String) :=
  match p.storage with
  | .denied => .error .securityError
  | _ => .ok (p.store key)

/-- The call `localStorage.setItem(key, value)`: throws when storage is
inaccessible or refuses the write. -/
def setItem (p : Page) (key value : String) : Except JsError Page :=
  match p.storage with
  | .available =>
    .ok { p with store := fun k => if k = key then some value else p.store k }
  | .quotaExceeded => .error .quotaExceededError
  | .denied => .error .securityError

/-- The call `target.addEventListener('click', l)` on the result of
`getElementById(id)`: a `TypeError` when the target is `null`. -/
def addClickListener (p : Page) (id : String) (target : Option Element)
    (l : Listener) : Except JsError Page :=
  match target with
  | none => .error .typeError
  | some el =>
    .ok { p with
          elements := fun k =>
            if k = id then some { el with clickListeners := el.clickListeners ++ [l] }
            else p.elements k }

/-- The call `e.preventDefault()`. -/
def Event.preventDefault (e : Event) : Event :=
  { e with defaultPrevented := e.defaultPrevented || e.cancelable }

/-- JavaScript truthiness of a `getItem` result: `null` and the empty string
are falsy, every other string is truthy. -/
def truthy : Option String → Bool
  | none => false
  | some s => !(s == "")

/-- String conversion applied by `setAttribute` to its value argument. -/
def jsToString : Option String → String
  | none => "null"
  | some s => s

/-! ## The two handlers -/

/-- The click listener, lines 5-14 of `dark-mode.js`. -/
def clickHandler (e : Event) (p : Page) : ClickOutcome :=
  let e1 := e.preventDefault
  if getAttribute p "data-theme" = some "dark" then
    let p1 := setAttribute p "data-theme" "light"
    match setItem p1 "theme" "light" with
    | .ok p2 => { page := p2, event := e1, completion := .normal }
    | .error err => { page := p1, event := e1, completion := .throw err }
  else
    let p1 := setAttribute p "data-theme" "dark"
    match setItem p1 "theme" "dark" with
    | .ok p2 => { page := p2, event := e1, completion := .normal }
    | .error err => { page := p1, event := e1, completion := .throw err }

/-- The `DOMContentLoaded` listener, lines 1-21 of `dark-mode.js`. -/
def initHandler (p : Page) : Outcome :=
  let toggle := getElementById p "dark-mode-toggle"
  match addClickListener p "dark-mode-toggle" toggle .themeClick with
  | .error err => { page := p, completion := .throw err }
  | .ok p1 =>
    match getItem p1 "theme" with
    | .error err => { page := p1, completion := .throw err }
    | .ok savedTheme =>
      if truthy savedTheme then
        { page := setAttribute p1 "data-theme" (jsToString savedTheme),
          completion := .normal }
      else { page := p1, completion := .normal }

/-- A user click on the control: cancelable, default not yet prevented. -/
def userClick : Event :=
  { cancelable := true, defaultPrevented := false }

/-- The page after `n` successive toggle activations. -/
def toggles : Nat → Page → Page
  | 0, p => p
  | n + 1, p => (clickHandler userClick (toggles n p)).page

/-- Whether the click closure of this script is registered on the control. -/
def listenerAttached (p : Page) : Bool :=
  match p.elements "dark-mode-toggle" with
  | none => false
  | some el => el.clickListeners.contains Listener.themeClick

/-! ## Concrete pages used as test inputs -/

/-- A control element with no listener yet. -/
def bareToggle : Element :=
  { clickListeners := [] }

/-- A page whose markup holds the control, with the given root `data-theme`
attribute, the given stored `theme` value and the given storage status. -/
def mkPage (hasToggle : Bool) (attr saved : Option String)
    (st : StorageStatus) : Page :=
  { elements := fun k =>
      if k = "dark-mode-toggle" then (if hasToggle then some bareToggle else none)
      else none
    attrs := fun k => if k = "data-theme" then attr else none
    store := fun k => if k = "theme" then saved else none
    storage := st }

/-- The theme a toggle activation moves to, from the attribute it reads. -/
def nextTheme (a : Option String) : String :=
  if a = some "dark" then "light" else "dark"

/-- Agreement of attribute and persisted value after a handler run that
started in `before`: both hold the same value, or nothing is persisted and the
attribute is the one `before` had. -/
def Synced (before after : Page) : Prop :=
  (∃ v, after.attrs "data-theme" = some v ∧ after.store "theme" = some v) ∨
  (after.store "theme" = none ∧
    after.attrs "data-theme" = before.attrs "data-theme")

/-! ## Basic facts about the handlers -/

theorem nextTheme_cases (a : Option String) :
    (a = some "dark" ∧ nextTheme a = "light") ∨
    (a ≠ some "dark" ∧ nextTheme a = "dark") := by
  unfold nextTheme
  by_cases h : a = some "dark"
  · left; simp [h]
  · right; simp [h]

theorem click_page_available (e : Event) (p : Page)
    (h : p.storage = .available) :
    (clickHandler e p).page =
      { p with
        attrs := fun k =>
          if k = "data-theme" then some (nextTheme (p.attrs "data-theme"))
          else p.attrs k
        store := fun k =>
          if k = "theme" then some (nextTheme (p.attrs "data-theme"))
          else p.store k } := by
  unfold clickHandler
  by_cases hd : p.attrs "data-theme" = some "dark"
  · simp [getAttribute, setAttribute, setItem, h, hd, nextTheme]
  · simp [getAttribute, setAttribute, setItem, h, hd, nextTheme]

theorem click_completion_available (e : Event) (p : Page)
    (h : p.storage = .available) :
    (clickHandler e p).completion = .normal := by
  unfold clickHandler
  by_cases hd : p.attrs "data-theme" = some "dark"
  · simp [getAttribute, setAttribute, setItem, h, hd]
  · simp [getAttribute, setAttribute, setItem, h, hd]

theorem click_attrs (e : Event) (p : Page) :
    (clickHandler e p).page.attrs =
      fun k =>
        if k = "data-theme" then some (nextTheme (p.attrs "data-theme"))
        else p.attrs k := by
  unfold clickHandler
  by_cases hd : p.attrs "data-theme" = some "dark" <;>
    cases hs : p.storage <;>
    simp [getAttribute, setAttribute, setItem, hs, hd, nextTheme]

theorem click_storage (e : Event) (p : Page) :
    (clickHandler e p).page.storage = p.storage := by
  unfold clickHandler
  by_cases hd : p.attrs "data-theme" = some "dark" <;>
    cases hs : p.storage <;>
    simp [getAttribute, setAttribute, setItem, hs, hd]

theorem click_elements (e : Event) (p : Page) :
    (clickHandler e p).page.elements = p.elements := by
  unfold clickHandler
  by_cases hd : p.attrs "data-theme" = some "dark" <;>
    cases hs : p.storage <;>
    simp [getAttribute, setAttribute, setItem, hs, hd]

theorem click_store_unavailable (e : Event) (p : Page)
    (h : p.storage ≠ .available) :
    (clickHandler e p).page.store = p.store ∧
      (clickHandler e p).completion ≠ .normal := by
  unfold clickHandler
  by_cases hd : p.attrs "data-theme" = some "dark" <;>
    cases hs : p.storage <;>
    simp_all [getAttribute, setAttribute, setItem]

theorem click_store_available (e : Event) (p : Page)
    (h : p.storage = .available) :
    (clickHandler e p).page.store =
      fun k =>
        if k = "theme" then some (nextTheme (p.attrs "data-theme"))
        else p.store k := by
  rw [click_page_available e p h]

theorem toggles_storage (n : Nat) (p : Page) :
    (toggles n p).storage = p.storage := by
  induction n with
  | zero => rfl
  | succ n ih => simp only [toggles]; rw [click_storage, ih]

theorem nextTheme_ne (a : Option String) :
    nextTheme (some (nextTheme a)) ≠ nextTheme a := by
  unfold nextTheme
  by_cases h : a = some "dark" <;> simp [h]

theorem click_click_page (e1 e2 : Event) (p : Page)
    (h : p.storage = .available) :
    (clickHandler e2 (clickHandler e1 p).page).page =
      { p with
        attrs := fun k =>
          if k = "data-theme" then
            some (nextTheme (some (nextTheme (p.attrs "data-theme"))))
          else p.attrs k
        store := fun k =>
          if k = "theme" then
            some (nextTheme (some (nextTheme (p.attrs "data-theme"))))
          else p.store k } := by
  have h1 : (clickHandler e1 p).page.storage = .available := by
    rw [click_storage]; exact h
  rw [click_page_available _ _ h1, click_page_available _ _ h]
  simp only [if_true, Page.mk.injEq, true_and, and_true]
  constructor <;> funext k <;> split <;> simp_all

theorem click_click_fixed (e1 e2 : Event) (p : Page)
    (h : p.storage = .available)
    (h2 : p.attrs "data-theme" = some "light" ∨
      p.attrs "data-theme" = some "dark")
    (h3 : p.store "theme" = p.attrs "data-theme") :
    (clickHandler e2 (clickHandler e1 p).page).page = p := by
  rw [click_click_page e1 e2 p h]
  have h4 : some (nextTheme (some (nextTheme (p.attrs "data-theme")))) =
      p.attrs "data-theme" := by
    rcases h2 with h2 | h2 <;> rw [h2] <;> simp [nextTheme]
  rw [h4]
  cases p with
  | mk els ats sto sta =>
    simp only [Page.mk.injEq, true_and, and_true]
    simp only at h3
    constructor
    · funext k; split
      · next hk => rw [hk]
      · rfl
    · funext k; split
      · next hk => rw [hk]; exact h3.symm
      · rfl

theorem toggles_succ_theme (n : Nat) (p : Page)
    (h : p.storage = .available) :
    (toggles (n + 1) p).attrs "data-theme" =
        some (nextTheme ((toggles n p).attrs "data-theme")) ∧
      (toggles (n + 1) p).store "theme" =
        some (nextTheme ((toggles n p).attrs "data-theme")) := by
  have hn : (toggles n p).storage = .available := by
    rw [toggles_storage]; exact h
  simp only [toggles]
  rw [click_page_available _ _ hn]
  simp

theorem nextTheme_light_or_dark (a : Option String) :
    nextTheme a = "light" ∨ nextTheme a = "dark" := by
  rcases nextTheme_cases a with ⟨_, h⟩ | ⟨_, h⟩
  · exact Or.inl h
  · exact Or.inr h

theorem click_store_frame (e : Event) (p : Page) (k : String)
    (hk : k ≠ "theme") :
    (clickHandler e p).page.store k = p.store k := by
  unfold clickHandler
  by_cases hd : p.attrs "data-theme" = some "dark" <;>
    cases hs : p.storage <;>
    simp [getAttribute, setAttribute, setItem, hs, hd, hk]

theorem click_store_theme_isSome (e : Event) (p : Page)
    (h : (p.store "theme").isSome = true) :
    ((clickHandler e p).page.store "theme").isSome = true := by
  unfold clickHandler
  by_cases hd : p.attrs "data-theme" = some "dark" <;>
    cases hs : p.storage <;>
    simp [getAttribute, setAttribute, setItem, hs, hd, h]

theorem init_no_toggle (p : Page)
    (h : p.elements "dark-mode-toggle" = none) :
    initHandler p = { page := p, completion := .throw .typeError } := by
  simp [initHandler, getElementById, addClickListener, h]

theorem init_store (p : Page) : (initHandler p).page.store = p.store := by
  unfold initHandler
  cases ht : p.elements "dark-mode-toggle" <;>
    cases hs : p.storage <;>
    simp only [getElementById, addClickListener, getItem, ht, hs] <;>
    split <;> simp [setAttribute]

theorem init_storage (p : Page) :
    (initHandler p).page.storage = p.storage := by
  unfold initHandler
  cases ht : p.elements "dark-mode-toggle" <;>
    cases hs : p.storage <;>
    simp only [getElementById, addClickListener, getItem, ht, hs] <;>
    split <;> simp [setAttribute, hs]

theorem init_attrs_frame (p : Page) (k : String) (hk : k ≠ "data-theme") :
    (initHandler p).page.attrs k = p.attrs k := by
  unfold initHandler
  cases ht : p.elements "dark-mode-toggle" <;>
    cases hs : p.storage <;>
    simp only [getElementById, addClickListener, getItem, ht, hs] <;>
    split <;> simp [setAttribute, hk]

theorem init_attrs_falsy (p : Page) (h : truthy (p.store "theme") = false) :
    (initHandler p).page.attrs = p.attrs := by
  unfold initHandler
  cases ht : p.elements "dark-mode-toggle" <;>
    cases hs : p.storage <;>
    simp [getElementById, addClickListener, getItem, ht, hs, h]

theorem init_readable (p : Page) (el : Element)
    (ht : p.elements "dark-mode-toggle" = some el)
    (hs : p.storage ≠ .denied) :
    (initHandler p).completion = .normal ∧
      listenerAttached (initHandler p).page = true ∧
      (initHandler p).page.attrs =
        if truthy (p.store "theme") then
          fun k =>
            if k = "data-theme" then some (jsToString (p.store "theme"))
            else p.attrs k
        else p.attrs := by
  unfold initHandler
  cases hst : p.storage <;>
    by_cases htr : truthy (p.store "theme") = true <;>
    simp_all [getElementById, addClickListener, getItem, setAttribute,
      listenerAttached]

theorem init_denied (p : Page) (el : Element)
    (ht : p.elements "dark-mode-toggle" = some el)
    (hs : p.storage = .denied) :
    (initHandler p).completion = .throw .securityError ∧
      listenerAttached (initHandler p).page = true ∧
      (initHandler p).page.attrs = p.attrs := by
  simp [initHandler, getElementById, addClickListener, getItem, ht, hs,
    listenerAttached]

theorem init_completion_normal (p : Page)
    (h : (initHandler p).completion = .normal) :
    (∃ el, p.elements "dark-mode-toggle" = some el) ∧ p.storage ≠ .denied := by
  cases ht : p.elements "dark-mode-toggle" with
  | none => rw [init_no_toggle p ht] at h; simp at h
  | some el =>
    refine ⟨⟨el, rfl⟩, ?_⟩
    intro hs
    rw [(init_denied p el ht hs).1] at h
    simp at h

/-! ## Toggle activation -/

/-- C1: with a working store, one run of the click handler ends normally with
the `data-theme` attribute and the persisted `theme` value both `"light"` when
the attribute was exactly `"dark"` before, and both `"dark"` in every other
case (any other string, or no attribute), whatever the store held. -/
theorem C1_click_sets_attribute_and_store (e : Event) (p : Page)
    (h : p.storage = .available) :
    (clickHandler e p).completion = .normal ∧
    (p.attrs "data-theme" = some "dark" →
      (clickHandler e p).page.attrs "data-theme" = some "light" ∧
      (clickHandler e p).page.store "theme" = some "light") ∧
    (p.attrs "data-theme" ≠ some "dark" →
      (clickHandler e p).page.attrs "data-theme" = some "dark" ∧
      (clickHandler e p).page.store "theme" = some "dark") := by
  refine ⟨click_completion_available e p h, ?_, ?_⟩
  · intro hd
    rw [click_page_available e p h]
    simp [hd, nextTheme]
  · intro hd
    rw [click_page_available e p h]
    simp [hd, nextTheme]

/-- C1 evaluated on a page with no attribute and an empty store: the first
toggle yields `"dark"` twice. -/
theorem C1_click_sets_attribute_and_store_witness :
    (mkPage true none none .available).storage = .available ∧
    (mkPage true none none .available).attrs "data-theme" ≠ some "dark" ∧
    (clickHandler userClick (mkPage true none none .available)).page.attrs
      "data-theme" = some "dark" ∧
    (clickHandler userClick (mkPage true none none .available)).page.store
      "theme" = some "dark" :=
  have hd : (mkPage true none none .available).attrs "data-theme" ≠ some "dark" := by
    simp [mkPage]
  ⟨rfl, hd,
    (C1_click_sets_attribute_and_store userClick
      (mkPage true none none .available) rfl).2.2 hd⟩

/-- C3 as stated fails: from a page with no attribute and nothing persisted,
two toggles leave attribute and persisted value at `"light"`, not absent. -/
theorem C3_double_toggle_counterexample :
    ¬ ((toggles 2 (mkPage true none none .available)).attrs "data-theme" =
        (mkPage true none none .available).attrs "data-theme" ∧
      (toggles 2 (mkPage true none none .available)).store "theme" =
        (mkPage true none none .available).store "theme") := by
  intro h
  have h1 := h.1
  simp only [toggles] at h1
  rw [click_attrs, click_attrs] at h1
  simp [mkPage, nextTheme] at h1

/-- C3 amended: with a working store, two toggles return both the attribute
and the persisted value to their original values exactly when the page started
with the attribute equal to `"light"` or `"dark"` and the persisted value equal
to the attribute; in that case the whole page state is restored. -/
theorem C3_double_toggle_restores_iff (p : Page)
    (h : p.storage = .available) :
    (((toggles 2 p).attrs "data-theme" = p.attrs "data-theme" ∧
      (toggles 2 p).store "theme" = p.store "theme") ↔
      ((p.attrs "data-theme" = some "light" ∨
          p.attrs "data-theme" = some "dark") ∧
        p.store "theme" = p.attrs "data-theme")) ∧
    (((p.attrs "data-theme" = some "light" ∨
          p.attrs "data-theme" = some "dark") ∧
        p.store "theme" = p.attrs "data-theme") → toggles 2 p = p) := by
  have key := click_click_page userClick userClick p h
  refine ⟨?_, ?_⟩
  · simp only [toggles]
    rw [key]
    simp only [if_true]
    rcases nextTheme_cases (p.attrs "data-theme") with ⟨ha, hn⟩ | ⟨ha, hn⟩
    · rw [hn, ha]
      simp only [nextTheme]
      simp
      exact eq_comm
    · rw [hn]
      constructor
      · rintro ⟨h2, h3⟩
        have h4 : nextTheme (some "dark") = "light" := by simp [nextTheme]
        rw [h4] at h2 h3
        exact ⟨Or.inl h2.symm, by rw [← h2, ← h3]⟩
      · rintro ⟨h2 | h2, h3⟩
        · rw [h3, h2]; simp [nextTheme]
        · exact absurd h2 ha
  · rintro ⟨h2, h3⟩
    simp only [toggles]
    exact click_click_fixed userClick userClick p h h2 h3

/-- C3 amended, evaluated on a page showing `"dark"` with `"dark"` persisted. -/
theorem C3_double_toggle_restores_iff_witness :
    (mkPage true (some "dark") (some "dark") .available).storage = .available ∧
    toggles 2 (mkPage true (some "dark") (some "dark") .available) =
      mkPage true (some "dark") (some "dark") .available :=
  ⟨rfl,
    (C3_double_toggle_restores_iff
      (mkPage true (some "dark") (some "dark") .available) rfl).2
      ⟨Or.inr (by simp [mkPage]), by simp [mkPage]⟩⟩

/-- C6: a run of the click handler leaves every root attribute other than
`data-theme`, every store key other than `theme`, the document elements and
the storage status as they were, whether or not the store write succeeds; and
neither the click handler nor the `DOMContentLoaded` handler removes a `theme`
key that was present (the latter leaves the whole store as it was). -/
theorem C6_click_frame_and_key_kept (e : Event) (p : Page) :
    (∀ k, k ≠ "data-theme" → (clickHandler e p).page.attrs k = p.attrs k) ∧
    (∀ k, k ≠ "theme" → (clickHandler e p).page.store k = p.store k) ∧
    (clickHandler e p).page.elements = p.elements ∧
    (clickHandler e p).page.storage = p.storage ∧
    ((p.store "theme").isSome = true →
      ((clickHandler e p).page.store "theme").isSome = true) ∧
    (initHandler p).page.store = p.store := by
  refine ⟨?_, click_store_frame e p, click_elements e p, click_storage e p,
    click_store_theme_isSome e p, init_store p⟩
  intro k hk
  rw [click_attrs]
  simp [hk]

/-- C6 evaluated on a page with `"dark"` persisted: the `lang` attribute and
the `visits` key are untouched by a click and the `theme` key is still there. -/
theorem C6_click_frame_and_key_kept_witness :
    (clickHandler userClick
        (mkPage true none (some "dark") .available)).page.attrs "lang" =
      (mkPage true none (some "dark") .available).attrs "lang" ∧
    (clickHandler userClick
        (mkPage true none (some "dark") .available)).page.store "visits" =
      (mkPage true none (some "dark") .available).store "visits" ∧
    ((clickHandler userClick
        (mkPage true none (some "dark") .available)).page.store
      "theme").isSome = true :=
  have h := C6_click_frame_and_key_kept userClick
    (mkPage true none (some "dark") .available)
  ⟨h.1 "lang" (by decide), h.2.1 "visits" (by decide),
    h.2.2.2.2.1 (by simp [mkPage])⟩

/-- C7: when the store write fails (storage not available), a run of the click
handler still sets the `data-theme` attribute to `"light"` if it was `"dark"`
and to `"dark"` otherwise, for every starting attribute; the whole store,
hence the persisted value, is left as it was. -/
theorem C7_click_flips_attribute_when_write_fails (e : Event) (p : Page)
    (h : p.storage ≠ .available) :
    (p.attrs "data-theme" = some "dark" →
      (clickHandler e p).page.attrs "data-theme" = some "light") ∧
    (p.attrs "data-theme" ≠ some "dark" →
      (clickHandler e p).page.attrs "data-theme" = some "dark") ∧
    (clickHandler e p).page.store = p.store := by
  refine ⟨?_, ?_, (click_store_unavailable e p h).1⟩
  · intro hd
    rw [click_attrs]
    simp [hd, nextTheme]
  · intro hd
    rw [click_attrs]
    simp [hd, nextTheme]

/-- C7 evaluated on a page showing `"dark"` whose store refuses writes. -/
theorem C7_click_flips_attribute_when_write_fails_witness :
    (mkPage true (some "dark") (some "dark") .quotaExceeded).storage ≠
      .available ∧
    (mkPage true (some "dark") (some "dark") .quotaExceeded).attrs
      "data-theme" = some "dark" ∧
    (clickHandler userClick
      (mkPage true (some "dark") (some "dark") .quotaExceeded)).page.attrs
      "data-theme" = some "light" ∧
    (clickHandler userClick
      (mkPage true (some "dark") (some "dark") .quotaExceeded)).page.store =
      (mkPage true (some "dark") (some "dark") .quotaExceeded).store :=
  have hs : (mkPage true (some "dark") (some "dark") .quotaExceeded).storage ≠
      .available := by decide
  have hd : (mkPage true (some "dark") (some "dark") .quotaExceeded).attrs
      "data-theme" = some "dark" := by simp [mkPage]
  have h := C7_click_flips_attribute_when_write_fails userClick
    (mkPage true (some "dark") (some "dark") .quotaExceeded) hs
  ⟨hs, hd, h.1 hd, h.2.2⟩

/-- C9: with a working store, for every starting page and every `n ≥ 1` the
page after `n + 2` toggle activations is the page after `n`; after `n`
activations the attribute is `"light"` or `"dark"` and the persisted value
equals it; and the page after `n + 1` activations differs from the page after
`n` in its attribute, so the period is exactly two. -/
theorem C9_toggles_period_two (p : Page) (n : Nat)
    (h : p.storage = .available) (hn : 1 ≤ n) :
    toggles (n + 2) p = toggles n p ∧
    ((toggles n p).attrs "data-theme" = some "light" ∨
      (toggles n p).attrs "data-theme" = some "dark") ∧
    (toggles n p).store "theme" = (toggles n p).attrs "data-theme" ∧
    (toggles (n + 1) p).attrs "data-theme" ≠
      (toggles n p).attrs "data-theme" := by
  obtain ⟨m, rfl⟩ : ∃ m, n = m + 1 := ⟨n - 1, by omega⟩
  have hm := toggles_succ_theme m p h
  have hm1 := toggles_succ_theme (m + 1) p h
  have hs : (toggles (m + 1) p).storage = .available := by
    rw [toggles_storage]; exact h
  have hld : (toggles (m + 1) p).attrs "data-theme" = some "light" ∨
      (toggles (m + 1) p).attrs "data-theme" = some "dark" := by
    rw [hm.1]
    rcases nextTheme_light_or_dark ((toggles m p).attrs "data-theme") with
      h1 | h1
    · left; rw [h1]
    · right; rw [h1]
  have heq : (toggles (m + 1) p).store "theme" =
      (toggles (m + 1) p).attrs "data-theme" := by
    rw [hm.1, hm.2]
  refine ⟨?_, hld, heq, ?_⟩
  · show (clickHandler userClick
        (clickHandler userClick (toggles (m + 1) p)).page).page =
      toggles (m + 1) p
    exact click_click_fixed userClick userClick _ hs hld heq
  · rw [hm1.1, hm.1]
    intro hc
    exact nextTheme_ne _ (Option.some.inj hc)

/-- C9 evaluated at `n = 1` on a page with no attribute and an empty store. -/
theorem C9_toggles_period_two_witness :
    (mkPage true none none .available).storage = .available ∧ 1 ≤ 1 ∧
    toggles 3 (mkPage true none none .available) =
      toggles 1 (mkPage true none none .available) ∧
    (toggles 2 (mkPage true none none .available)).attrs "data-theme" ≠
      (toggles 1 (mkPage true none none .available)).attrs "data-theme" :=
  have h := C9_toggles_period_two (mkPage true none none .available) 1 rfl
    (Nat.le_refl 1)
  ⟨rfl, Nat.le_refl 1, h.1, h.2.2.2⟩

/-! ## Page load -/

/-- C2 as stated fails: with the empty string persisted and the markup
declaring `"light"`, the `DOMContentLoaded` handler finishes normally, yet the
attribute (`"light"`) and the persisted value (`""`, present) do not agree. -/
theorem C2_synced_counterexample :
    (initHandler (mkPage true (some "light") (some "") .available)).completion
      = .normal ∧
    ¬ Synced (mkPage true (some "light") (some "") .available)
      (initHandler (mkPage true (some "light") (some "") .available)).page := by
  have ht : (mkPage true (some "light") (some "") .available).elements
      "dark-mode-toggle" = some bareToggle := by simp [mkPage]
  have hs : (mkPage true (some "light") (some "") .available).storage ≠
      .denied := by decide
  have hr := init_readable _ bareToggle ht hs
  refine ⟨hr.1, ?_⟩
  unfold Synced
  rw [init_store, hr.2.2]
  simp [mkPage, truthy]

/-- C2 amended: whenever the `DOMContentLoaded` handler finishes normally on a
page whose persisted `theme` value is not the empty string, and whenever the
click handler finishes normally, the `data-theme` attribute and the persisted
value hold the same string, or nothing is persisted and the attribute is the
one the page had before; for every starting attribute and store content. -/
theorem C2_handlers_leave_synced (e : Event) (p : Page) :
    ((initHandler p).completion = .normal → p.store "theme" ≠ some "" →
      Synced p (initHandler p).page) ∧
    ((clickHandler e p).completion = .normal →
      Synced p (clickHandler e p).page) := by
  constructor
  · intro hc hne
    obtain ⟨⟨el, ht⟩, hs⟩ := init_completion_normal p hc
    have hr := (init_readable p el ht hs).2.2
    unfold Synced
    rw [init_store, hr]
    cases hv : p.store "theme" with
    | none => right; simp [truthy]
    | some v =>
      left
      have hv2 : v ≠ "" := by
        intro h0; apply hne; rw [hv, h0]
      exact ⟨v, by simp [truthy, hv2, jsToString], rfl⟩
  · intro hc
    have hs : p.storage = .available := by
      by_contra hs
      exact (click_store_unavailable e p hs).2 hc
    left
    refine ⟨nextTheme (p.attrs "data-theme"), ?_, ?_⟩
    · rw [click_attrs]; simp
    · rw [click_store_available e p hs]; simp

/-- C2 amended, evaluated on a page with `"dark"` persisted and no attribute. -/
theorem C2_handlers_leave_synced_witness :
    (initHandler (mkPage true none (some "dark") .available)).completion
      = .normal ∧
    (mkPage true none (some "dark") .available).store "theme" ≠ some "" ∧
    Synced (mkPage true none (some "dark") .available)
      (initHandler (mkPage true none (some "dark") .available)).page ∧
    (clickHandler userClick
      (mkPage true none (some "dark") .available)).completion = .normal ∧
    Synced (mkPage true none (some "dark") .available)
      (clickHandler userClick
        (mkPage true none (some "dark") .available)).page :=
  have hc : (initHandler
      (mkPage true none (some "dark") .available)).completion = .normal :=
    (init_readable _ bareToggle (by simp [mkPage]) (by decide)).1
  have hne : (mkPage true none (some "dark") .available).store "theme" ≠
      some "" := by simp [mkPage]
  have hk : (clickHandler userClick
      (mkPage true none (some "dark") .available)).completion = .normal :=
    click_completion_available _ _ rfl
  have h := C2_handlers_leave_synced userClick
    (mkPage true none (some "dark") .available)
  ⟨hc, hne, h.1 hc hne, hk, h.2 hk⟩

/-- C4 as stated fails: with the empty string persisted, the
`DOMContentLoaded` handler finishes normally without setting the attribute to
that value. -/
theorem C4_stored_value_counterexample :
    (mkPage true none (some "") .available).store "theme" = some "" ∧
    (initHandler (mkPage true none (some "") .available)).completion
      = .normal ∧
    (initHandler (mkPage true none (some "") .available)).page.attrs
      "data-theme" ≠ some "" := by
  have ht : (mkPage true none (some "") .available).elements
      "dark-mode-toggle" = some bareToggle := by simp [mkPage]
  have hs : (mkPage true none (some "") .available).storage ≠ .denied := by
    decide
  have hr := init_readable _ bareToggle ht hs
  refine ⟨by simp [mkPage], hr.1, ?_⟩
  rw [hr.2.2]
  simp [mkPage, truthy]

/-- C4 amended: on a page that holds the control and whose store can be read,
for every non-empty persisted `theme` value the `DOMContentLoaded` handler
finishes normally, sets the `data-theme` attribute to exactly that value and
leaves the store unchanged. -/
theorem C4_init_applies_stored_value (p : Page) (el : Element) (v : String)
    (ht : p.elements "dark-mode-toggle" = some el)
    (hs : p.storage ≠ .denied)
    (hv : p.store "theme" = some v) (hne : v ≠ "") :
    (initHandler p).page.attrs "data-theme" = some v ∧
    (initHandler p).page.store = p.store ∧
    (initHandler p).completion = .normal := by
  have hr := init_readable p el ht hs
  refine ⟨?_, init_store p, hr.1⟩
  rw [hr.2.2, hv]
  simp [truthy, hne, jsToString]

/-- C4 amended, evaluated with `"dark"` persisted: the attribute becomes
`"dark"`. -/
theorem C4_init_applies_stored_value_witness :
    (mkPage true none (some "dark") .available).elements "dark-mode-toggle" =
      some bareToggle ∧
    (mkPage true none (some "dark") .available).storage ≠ .denied ∧
    (mkPage true none (some "dark") .available).store "theme" = some "dark" ∧
    "dark" ≠ "" ∧
    (initHandler (mkPage true none (some "dark") .available)).page.attrs
      "data-theme" = some "dark" :=
  have ht : (mkPage true none (some "dark") .available).elements
      "dark-mode-toggle" = some bareToggle := by simp [mkPage]
  have hs : (mkPage true none (some "dark") .available).storage ≠ .denied := by
    decide
  have hv : (mkPage true none (some "dark") .available).store "theme" =
      some "dark" := by simp [mkPage]
  have hne : "dark" ≠ "" := by decide
  ⟨ht, hs, hv, hne,
    (C4_init_applies_stored_value _ bareToggle "dark" ht hs hv hne).1⟩

/-- C5: when no `theme` value is persisted, the `DOMContentLoaded` handler
leaves every root attribute (so `data-theme` keeps its markup value, or stays
unset) and the whole store as they were, so the `theme` key is still absent
afterwards; this holds whether or not the handler finishes normally. -/
theorem C5_init_without_preference (p : Page)
    (h : p.store "theme" = none) :
    (initHandler p).page.attrs = p.attrs ∧
    (initHandler p).page.store = p.store ∧
    (initHandler p).page.store "theme" = none := by
  refine ⟨init_attrs_falsy p (by rw [h]; rfl), init_store p, ?_⟩
  rw [init_store, h]

/-- C5 evaluated on a page whose markup declares `"light"` and whose store is
empty. -/
theorem C5_init_without_preference_witness :
    (mkPage true (some "light") none .available).store "theme" = none ∧
    (initHandler (mkPage true (some "light") none .available)).page.attrs =
      (mkPage true (some "light") none .available).attrs ∧
    (initHandler (mkPage true (some "light") none .available)).page.store
      "theme" = none :=
  have h0 : (mkPage true (some "light") none .available).store "theme" =
      none := by simp [mkPage]
  have h := C5_init_without_preference
    (mkPage true (some "light") none .available) h0
  ⟨h0, h.1, h.2.2⟩

/-- C8 as stated fails: on a page that holds the control and whose store
cannot be read, the `DOMContentLoaded` handler does not finish normally, so
the conjunction of normal completion, untouched attributes and attached
listener is false. -/
theorem C8_read_failure_counterexample :
    ¬ ((initHandler (mkPage true none (some "dark") .denied)).completion
        = .normal ∧
      (initHandler (mkPage true none (some "dark") .denied)).page.attrs =
        (mkPage true none (some "dark") .denied).attrs ∧
      listenerAttached
        (initHandler (mkPage true none (some "dark") .denied)).page = true) := by
  intro h
  have hd := (init_denied (mkPage true none (some "dark") .denied) bareToggle
    (by simp [mkPage]) rfl).1
  rw [hd] at h
  exact absurd h.1 (by decide)

/-- C8 amended: on a page that holds the control, a failure of the store read
in the `DOMContentLoaded` handler leaves the handler by an uncaught
exception; the click listener has been attached before that, and no attribute
override is applied: attributes and store are as they were. -/
theorem C8_read_failure_propagates (p : Page) (el : Element)
    (ht : p.elements "dark-mode-toggle" = some el)
    (hs : p.storage = .denied) :
    (initHandler p).completion = .throw .securityError ∧
    listenerAttached (initHandler p).page = true ∧
    (initHandler p).page.attrs = p.attrs ∧
    (initHandler p).page.store = p.store := by
  have h := init_denied p el ht hs
  exact ⟨h.1, h.2.1, h.2.2, init_store p⟩

/-- C8 amended, evaluated on a page with `"dark"` persisted in a store that
cannot be read. -/
theorem C8_read_failure_propagates_witness :
    (mkPage true none (some "dark") .denied).elements "dark-mode-toggle" =
      some bareToggle ∧
    (mkPage true none (some "dark") .denied).storage = .denied ∧
    (initHandler (mkPage true none (some "dark") .denied)).completion =
      .throw .securityError ∧
    listenerAttached
      (initHandler (mkPage true none (some "dark") .denied)).page = true :=
  have ht : (mkPage true none (some "dark") .denied).elements
      "dark-mode-toggle" = some bareToggle := by simp [mkPage]
  have h := C8_read_failure_propagates
    (mkPage true none (some "dark") .denied) bareToggle ht rfl
  ⟨ht, rfl, h.1, h.2.1⟩

/-- C10: when no element has the id `dark-mode-toggle`, the
`DOMContentLoaded` handler ends with a `TypeError` raised at the listener
registration, whatever the storage status (the store is not reached); no click
listener is attached and the page, in particular the `data-theme` attribute
and the store, is exactly as before, even when a `theme` value is persisted. -/
theorem C10_init_without_control (p : Page)
    (h : p.elements "dark-mode-toggle" = none) :
    (initHandler p).completion = .throw .typeError ∧
    (initHandler p).page = p ∧
    listenerAttached (initHandler p).page = false := by
  rw [init_no_toggle p h]
  refine ⟨rfl, rfl, ?_⟩
  simp [listenerAttached, h]

/-- C10 evaluated on a page without the control, with `"dark"` persisted in a
store that cannot be read: the error is the `TypeError`, the attribute is
still unset. -/
theorem C10_init_without_control_witness :
    (mkPage false none (some "dark") .denied).elements "dark-mode-toggle" =
      none ∧
    (initHandler (mkPage false none (some "dark") .denied)).completion =
      .throw .typeError ∧
    (initHandler (mkPage false none (some "dark") .denied)).page.attrs
      "data-theme" = none ∧
    listenerAttached
      (initHandler (mkPage false none (some "dark") .denied)).page = false :=
  have h0 : (mkPage false none (some "dark") .denied).elements
      "dark-mode-toggle" = none := by simp [mkPage]
  have h := C10_init_without_control
    (mkPage false none (some "dark") .denied) h0
  ⟨h0, h.1, by rw [h.2.1]; simp [mkPage], h.2.2⟩

end DarkMode
